import Mathlib

/-!
Shallow embedding of the account-lifecycle core of the Booty backend
(`backend/controllers/userController.js`: `registerUser`, `verifyEmail`,
`signinCustomer`), together with the external collaborators it calls
(Firebase credential provider, MongoDB record store, mail notifier).

Conventions:
* JavaScript `Date` values are modelled as `Nat` milliseconds.
* MongoDB's user collection is a `List UserRecord` in insertion order;
  `findOne` is `List.find?` (first match in natural order).
* Request parameters that may be absent arrive as `""` (form fields) or
  `Option String` (query parameters), matching the JS truthiness checks.
* Outcomes of the external systems that the controller cannot influence
  (spurious provider failures, record-store failures, notifier failures)
  are passed to the operations as explicit inputs.
-/

namespace Booty

/-- A MongoDB user document, with the fields `registerUser` writes
(`backend/controllers/userController.js`, lines 76-92) and the
verification fields used by `verifyEmail` and `signinCustomer`. -/
structure UserRecord where
  email : String
  /-- bcrypt digest of the password, stored for backup verification. -/
  password : String
  username : Option String
  phone : Option String
  experience : String
  level : Nat
  role : Nat
  note : String
  avatarUrl : String
  favorites : List String
  histories : List String
  isVerified : Bool
  verificationToken : Option String
  verificationTokenExpires : Option Nat
  deriving Repr, DecidableEq

/-- An error raised by the Firebase SDK: a machine `code` (e.g.
"auth/email-already-in-use") and a human-readable `message`. -/
structure FirebaseError where
  code : String
  message : String
  deriving Repr, DecidableEq

/-- Outcome of `signInWithEmailAndPassword` followed by `getIdToken`,
supplied to `signinCustomer` as an input (the provider is external). -/
inductive FirebaseSignIn where
  | success (idToken : String)
  | failure (code : String) (message : String)
  deriving Repr, DecidableEq

/-- Modelled from the spec: `Notifier.sendVerification(email, token,
baseLink) -> ok | error` (fire-and-forget).  The notifier is external;
its outcome is an input to `registerUser`. -/
inductive NotifyOutcome where
  | ok
  | failed (message : String)
  deriving Repr, DecidableEq

/-- The combined persistent state of the two backing systems:
`firebase` is the set of identities in the credential provider, stored
as lower-cased emails (Firebase canonicalises email case), and `users`
is the MongoDB user collection in insertion order. -/
structure DB where
  firebase : List String
  users : List UserRecord
  deriving Repr, DecidableEq

/-- Models `bcrypt.hash(password, 10)`: an opaque one-way digest.  The
hash function itself is outside the embedding; only that the digest is
stored (never compared by the core) matters to the claims. -/
def bcryptHash (password : String) : String :=
  "bcrypt-10-" ++ password

/-- `verificationTokenExpires.setHours(getHours() + 24)`: 24 hours in
milliseconds. -/
def tokenLifetimeMs : Nat := 24 * 60 * 60 * 1000

/-- Lower-casing of an email for the provider's case-insensitive
comparison: `String.toLower`, written over the character list so that
it is kernel-reducible (`String.map` is defined by well-founded
recursion). -/
def lowerEmail (s : String) : String :=
  ⟨s.data.map Char.toLower⟩

/-- Modelled from the spec: `CredentialProvider.create(email, password)
-> identityRef | {already_exists | other}` (Firebase
`createUserWithEmailAndPassword`, an external system).  Creation fails
with code "auth/email-already-in-use" exactly when an identity with the
same email (case-insensitively) already exists; otherwise it fails with
the supplied spurious error, if any, and otherwise succeeds and records
the identity. -/
def firebaseCreate (fb : List String) (email : String) (spurious : Option FirebaseError) :
    Except FirebaseError (List String) :=
  if fb.contains (lowerEmail email) then
    .error { code := "auth/email-already-in-use"
             message := "Firebase: Error (auth/email-already-in-use)." }
  else
    match spurious with
    | some e => .error e
    | none => .ok ((lowerEmail email) :: fb)

/-- Response of the `register_user` endpoint: a 200 JSON success body,
or an error thrown with a status set via `res.status(...)`. -/
inductive RegisterResponse where
  | ok (message : String)
  | err (status : Nat) (message : String)
  deriving Repr, DecidableEq

/-- Response of the `verify-email` endpoint: the 200 success HTML page,
or a 400 HTML error page carrying the given error paragraph text. -/
inductive VerifyResponse where
  | successPage
  | errorPage (message : String)
  deriving Repr, DecidableEq

/-- The data object returned by a successful `signin_customer` call
(the Mongo `_id` and the unset `name` field are not modelled). -/
structure SigninData where
  email : String
  username : Option String
  idToken : String
  deriving Repr, DecidableEq

/-- Response of the `signin_customer` endpoint. -/
inductive SigninResponse where
  | ok (data : SigninData)
  | err (status : Nat) (message : String)
  deriving Repr, DecidableEq

/-- The predicate behind `User.findOne({ email })`: exact (case-
sensitive) string equality on the stored email. -/
def emailMatches (email : String) (u : UserRecord) : Bool :=
  u.email == email

/-- The predicate behind `User.findOne({ verificationToken: token,
verificationTokenExpires: { $gt: new Date() } })`: the stored token
equals the presented one and the stored expiry exists and is strictly
in the future. -/
def tokenMatches (token : String) (now : Nat) (u : UserRecord) : Bool :=
  u.verificationToken == some token &&
    (match u.verificationTokenExpires with
     | some expiry => decide (now < expiry)
     | none => false)

/-- `exports.registerUser` (`userController.js` lines 26-125).
Validates the fields, pre-checks MongoDB for a duplicate email, creates
the Firebase identity, persists the Mongo record with
`isVerified: false` and the token/expiry, sends the verification email
(outcome logged and swallowed), and acknowledges.

Inputs from the environment: `verificationToken` is the value of
`crypto.randomBytes(32).toString('hex')`, `now` the current time,
`fbFail` a spurious Firebase failure (if any), `mongoFail` the error
message of a failing `User.create` (if any), `notify` the notifier
outcome (unused: the source only logs it). -/
def registerUser (db : DB) (email password : String) (username phone : Option String)
    (verificationToken : String) (now : Nat) (fbFail : Option FirebaseError)
    (mongoFail : Option String) (notify : NotifyOutcome) : RegisterResponse × DB :=
  if email == "" then (.err 400 "Please add email", db)
  else if password == "" then (.err 400 "Please add password", db)
  else if (db.users.find? (emailMatches email)).isSome then
    (.err 400 "A user with that email already exists", db)
  else
    match firebaseCreate db.firebase email fbFail with
    | .error e =>
        if e.code == "auth/email-already-in-use" then
          (.err 400 "A user with that email already exists", db)
        else
          (.err 500 ("Error creating Firebase user: " ++ e.message), db)
    | .ok fb =>
        let newUser : UserRecord :=
          { email := email
            password := bcryptHash password
            username := username
            phone := phone
            experience := ""
            level := 0
            role := 0
            note := ""
            avatarUrl := ""
            favorites := []
            histories := []
            isVerified := false
            verificationToken := some verificationToken
            verificationTokenExpires := some (now + tokenLifetimeMs) }
        match mongoFail with
        | some msg =>
            -- the Firebase identity is not rolled back (accepted orphan)
            (.err 500 ("Error creating user: " ++ msg), { db with firebase := fb })
        | none =>
            -- the notifier outcome is logged and swallowed in the source,
            -- so `notify` does not occur in the result
            (.ok "User registered successfully. Please check your email to verify your account.",
             { firebase := fb, users := db.users ++ [newUser] })

/-- Replace the first element satisfying `p` by its image under `f`;
models loading one document with `findOne` and `save`-ing the mutation
back. -/
def updateFirst (p : α → Bool) (f : α → α) : List α → List α
  | [] => []
  | x :: xs => if p x then f x :: xs else x :: updateFirst p f xs

/-- The mutation `verifyEmail` applies to the matched user document
(lines 198-202): mark verified and clear both token fields. -/
def markVerified (u : UserRecord) : UserRecord :=
  { u with isVerified := true
           verificationToken := none
           verificationTokenExpires := none }

/-- `exports.verifyEmail` (`userController.js` lines 136-230).  The
token arrives as a query parameter (`none` when absent; the empty
string is also falsy in JS).  Looks up the first user whose stored
token matches and is unexpired; on a match marks it verified and clears
the token fields, otherwise returns an error page and leaves the store
untouched. -/
def verifyEmail (db : DB) (now : Nat) (token : Option String) : VerifyResponse × DB :=
  match token with
  | none => (.errorPage "Verification token is required.", db)
  | some t =>
      if t == "" then (.errorPage "Verification token is required.", db)
      else
        match db.users.find? (tokenMatches t now) with
        | none =>
            (.errorPage "Invalid or expired verification token. Please request a new verification email.",
             db)
        | some _ =>
            (.successPage, { db with users := updateFirst (tokenMatches t now) markVerified db.users })

/-- `exports.signinCustomer` (`userController.js` lines 245-301).
Validates the fields, looks the user up by email in MongoDB, rejects
unverified users with a 403 before any provider call, then delegates to
Firebase (`fbAuth` is the provider's outcome).  Performs no store
writes, so it returns only a response. -/
def signinCustomer (db : DB) (email password : String) (fbAuth : FirebaseSignIn) :
    SigninResponse :=
  if email == "" || password == "" then .err 400 "Email and password are required"
  else
    match db.users.find? (emailMatches email) with
    | none => .err 401 "Invalid email or password"
    | some user =>
        if !user.isVerified then
          .err 403 "Please verify your email address before logging in. Check your inbox for the verification email."
        else
          match fbAuth with
          | .success idToken =>
              .ok { email := user.email, username := user.username, idToken := idToken }
          | .failure code message =>
              if code == "auth/user-not-found" || code == "auth/wrong-password" ||
                  code == "auth/invalid-credential" then
                .err 401 "Invalid email or password"
              else
                .err 500 ("Authentication failed: " ++ message)

/-! ### Helper lemmas -/

theorem tokenMatches_iff {t : String} {now : Nat} {u : UserRecord} :
    tokenMatches t now u = true ↔
      u.verificationToken = some t ∧ ∃ e, u.verificationTokenExpires = some e ∧ now < e := by
  cases hx : u.verificationTokenExpires <;> simp [tokenMatches, hx]

theorem tokenMatches_markVerified (t : String) (now : Nat) (u : UserRecord) :
    tokenMatches t now (markVerified u) = false := by
  simp [tokenMatches, markVerified]

theorem find?_updateFirst_none {α : Type} {p : α → Bool} {f : α → α} {l : List α}
    (hf : ∀ x, p x = true → p (f x) = false) (h1 : l.countP p ≤ 1) :
    (updateFirst p f l).find? p = none := by
  induction l with
  | nil => rfl
  | cons x xs ih =>
      by_cases hx : p x = true
      · rw [updateFirst, if_pos hx, List.find?_cons_of_neg _ (by simp [hf x hx]),
          List.find?_eq_none]
        rw [List.countP_cons_of_pos p _ hx] at h1
        have h0 : xs.countP p = 0 := by omega
        intro y hy
        simp [List.countP_eq_zero.mp h0 y hy]
      · rw [updateFirst, if_neg hx, List.find?_cons_of_neg _ hx]
        apply ih
        rwa [List.countP_cons_of_neg p _ hx] at h1

theorem mem_updateFirst {α : Type} {p : α → Bool} {f : α → α} {l : List α} {y : α}
    (hy : y ∈ updateFirst p f l) : y ∈ l ∨ ∃ x, x ∈ l ∧ y = f x := by
  induction l with
  | nil => simp [updateFirst] at hy
  | cons x xs ih =>
      rw [updateFirst] at hy
      by_cases hx : p x = true
      · rw [if_pos hx] at hy
        rcases List.mem_cons.mp hy with h | h
        · exact Or.inr ⟨x, List.mem_cons_self x xs, h⟩
        · exact Or.inl (List.mem_cons_of_mem _ h)
      · rw [if_neg hx] at hy
        rcases List.mem_cons.mp hy with h | h
        · exact Or.inl (h ▸ List.mem_cons_self x xs)
        · rcases ih h with h' | ⟨x', hx', hy'⟩
          · exact Or.inl (List.mem_cons_of_mem _ h')
          · exact Or.inr ⟨x', List.mem_cons_of_mem _ hx', hy'⟩

/-! ### Claims -/

/-- C1: a successful registration (valid, non-duplicate email and
non-empty password) persists the account with `isVerified = false`, and
a login with that email before any verification attempt returns the 403
verify-your-email error, not the generic 401 and not success. -/
theorem c1_register_then_login_unverified
    (db : DB) (email password : String) (username phone : Option String)
    (tok : String) (now : Nat) (notify : NotifyOutcome) (fbAuth : FirebaseSignIn)
    (hEmail : ¬ email = "") (hPassword : ¬ password = "")
    (hNoDup : db.users.find? (emailMatches email) = none)
    (hFb : db.firebase.contains (lowerEmail email) = false) :
    (registerUser db email password username phone tok now none none notify).1 =
      .ok "User registered successfully. Please check your email to verify your account." ∧
    (∃ u, (registerUser db email password username phone tok now none none notify).2.users.find?
        (emailMatches email) = some u ∧ u.isVerified = false) ∧
    signinCustomer (registerUser db email password username phone tok now none none notify).2
        email password fbAuth =
      .err 403 "Please verify your email address before logging in. Check your inbox for the verification email." := by
  have hbe : (email == "") = false := beq_eq_false_iff_ne.mpr hEmail
  have hbp : (password == "") = false := beq_eq_false_iff_ne.mpr hPassword
  have hreg : registerUser db email password username phone tok now none none notify =
      (.ok "User registered successfully. Please check your email to verify your account.",
       { firebase := (lowerEmail email) :: db.firebase,
         users := db.users ++
           [⟨email, bcryptHash password, username, phone, "", 0, 0, "", "", [], [],
             false, some tok, some (now + tokenLifetimeMs)⟩] }) := by
    have hFb' : ¬ (lowerEmail email) ∈ db.firebase := by simpa using hFb
    simp [registerUser, hbe, hbp, hNoDup, firebaseCreate, hFb']
  have hfind : (registerUser db email password username phone tok now none none notify).2.users.find?
      (emailMatches email) =
      some ⟨email, bcryptHash password, username, phone, "", 0, 0, "", "", [], [],
        false, some tok, some (now + tokenLifetimeMs)⟩ := by
    rw [hreg]
    simp [List.find?_append, hNoDup, emailMatches]
  refine ⟨by rw [hreg], ⟨_, hfind, rfl⟩, ?_⟩
  simp [signinCustomer, hbe, hbp, hfind]

/-- C2: with a presented (non-empty) token, `verifyEmail` succeeds if
and only if some stored account has `verificationToken` equal to the
token and `verificationTokenExpires` strictly greater than the current
time; every failing lookup (no match or expired, even on an exact
string match) produces the one undistinguished invalid-token error
page. -/
theorem c2_verify_success_iff_match
    (db : DB) (now : Nat) (t : String) (ht : ¬ t = "") :
    ((verifyEmail db now (some t)).1 = .successPage ↔
      ∃ u, u ∈ db.users ∧ u.verificationToken = some t ∧
        ∃ e, u.verificationTokenExpires = some e ∧ now < e) ∧
    ∀ r, (verifyEmail db now (some t)).1 = .errorPage r →
      r = "Invalid or expired verification token. Please request a new verification email." := by
  have hbt : (t == "") = false := beq_eq_false_iff_ne.mpr ht
  cases hf : db.users.find? (tokenMatches t now) with
  | none =>
      have hv : (verifyEmail db now (some t)).1 =
          .errorPage "Invalid or expired verification token. Please request a new verification email." := by
        simp [verifyEmail, hbt, hf]
      refine ⟨⟨fun h => absurd (hv ▸ h) (by simp), ?_⟩, ?_⟩
      · rintro ⟨u, hu, htok, e, he, hlt⟩
        have := List.find?_eq_none.mp hf u hu
        exact absurd (tokenMatches_iff.mpr ⟨htok, e, he, hlt⟩) (by simpa using this)
      · intro r hr
        rw [hv] at hr
        exact (VerifyResponse.errorPage.injEq _ _ ▸ hr).symm
  | some u =>
      have hv : (verifyEmail db now (some t)).1 = .successPage := by
        simp [verifyEmail, hbt, hf]
      refine ⟨⟨fun _ => ?_, fun _ => hv⟩, fun r hr => absurd (hv ▸ hr) (by simp)⟩
      have hmem := List.mem_of_find?_eq_some hf
      have hmatch := List.find?_some hf
      rcases tokenMatches_iff.mp hmatch with ⟨htok, e, he, hlt⟩
      exact ⟨u, hmem, htok, e, he, hlt⟩

/-- C3: for an account in the Pending state holding an unexpired token
(and no other account holding a matching unexpired token), the first
`verifyEmail` with that token succeeds and the immediate replay of the
same token is rejected with the invalid-token page, because the stored
token was cleared by the successful call. -/
theorem c3_verify_then_replay_rejected
    (db : DB) (now : Nat) (t : String) (u : UserRecord) (e : Nat)
    (ht : ¬ t = "") (hmem : u ∈ db.users) (htok : u.verificationToken = some t)
    (hexp : u.verificationTokenExpires = some e) (hlt : now < e)
    (hpending : u.isVerified = false)
    (huniq : db.users.countP (tokenMatches t now) ≤ 1) :
    (verifyEmail db now (some t)).1 = .successPage ∧
    (verifyEmail (verifyEmail db now (some t)).2 now (some t)).1 =
      .errorPage "Invalid or expired verification token. Please request a new verification email." := by
  have hbt : (t == "") = false := beq_eq_false_iff_ne.mpr ht
  have hmatch : tokenMatches t now u = true := tokenMatches_iff.mpr ⟨htok, e, hexp, hlt⟩
  have hsome : (db.users.find? (tokenMatches t now)).isSome :=
    List.find?_isSome.mpr ⟨u, hmem, hmatch⟩
  cases hf : db.users.find? (tokenMatches t now) with
  | none => rw [hf] at hsome; simp at hsome
  | some v =>
      have h1 : (verifyEmail db now (some t)).1 = .successPage := by
        simp [verifyEmail, hbt, hf]
      have h2 : (verifyEmail db now (some t)).2 =
          { db with users := updateFirst (tokenMatches t now) markVerified db.users } := by
        simp [verifyEmail, hbt, hf]
      refine ⟨h1, ?_⟩
      rw [h2]
      have hnone : (updateFirst (tokenMatches t now) markVerified db.users).find?
          (tokenMatches t now) = none :=
        find?_updateFirst_none (fun x _ => tokenMatches_markVerified t now x) huniq
      simp [verifyEmail, hbt, hnone]

/-- The record store after `registerUser`: either untouched (any error
path) or extended by exactly one new record, which is unverified. -/
theorem registerUser_users_cases (db : DB) (email password : String)
    (username phone : Option String) (tok : String) (now : Nat)
    (fbFail : Option FirebaseError) (mongoFail : Option String) (notify : NotifyOutcome) :
    (registerUser db email password username phone tok now fbFail mongoFail notify).2.users =
      db.users ∨
    ∃ w, (registerUser db email password username phone tok now fbFail mongoFail notify).2.users =
      db.users ++ [w] ∧ w.isVerified = false := by
  unfold registerUser
  split
  · exact Or.inl rfl
  · split
    · exact Or.inl rfl
    · split
      · exact Or.inl rfl
      · split
        · split
          · exact Or.inl rfl
          · exact Or.inl rfl
        · split
          · exact Or.inl rfl
          · exact Or.inr ⟨_, rfl, rfl⟩

/-- The record store after `verifyEmail`: either untouched, or the
first account matching the presented token is replaced by its
`markVerified` image. -/
theorem verifyEmail_state (db : DB) (now : Nat) (vtok : Option String) :
    (verifyEmail db now vtok).2 = db ∨
    ∃ t, vtok = some t ∧ (verifyEmail db now vtok).2.users =
      updateFirst (tokenMatches t now) markVerified db.users := by
  cases vtok with
  | none => exact Or.inl rfl
  | some t =>
      by_cases h : (t == "") = true
      · left; simp [verifyEmail, h]
      · have h2 : (t == "") = false := by simpa using h
        cases hf : db.users.find? (tokenMatches t now) with
        | none => left; simp [verifyEmail, h2, hf]
        | some u => exact Or.inr ⟨t, rfl, by simp [verifyEmail, h2, hf]⟩

/-- C4: `registerUser`, `verifyEmail` and `signinCustomer` preserve the
account invariant `isVerified = true → both token fields cleared`
(`signinCustomer` performs no store write at all, so only the two
writers appear), and every record changed by `verifyEmail` is exactly a
verified record with both token fields cleared. -/
theorem c4_invariant_preserved
    (db : DB)
    (hinv : ∀ u, u ∈ db.users → u.isVerified = true →
      u.verificationToken = none ∧ u.verificationTokenExpires = none)
    (email password : String) (username phone : Option String) (tok : String) (now : Nat)
    (fbFail : Option FirebaseError) (mongoFail : Option String) (notify : NotifyOutcome)
    (vtok : Option String) :
    (∀ u, u ∈ (registerUser db email password username phone tok now fbFail mongoFail notify).2.users →
       u.isVerified = true → u.verificationToken = none ∧ u.verificationTokenExpires = none) ∧
    (∀ u, u ∈ (verifyEmail db now vtok).2.users →
       u.isVerified = true → u.verificationToken = none ∧ u.verificationTokenExpires = none) ∧
    (∀ u, u ∈ (verifyEmail db now vtok).2.users → u ∈ db.users ∨
       (u.isVerified = true ∧ u.verificationToken = none ∧ u.verificationTokenExpires = none)) := by
  have hverify : ∀ u, u ∈ (verifyEmail db now vtok).2.users → u ∈ db.users ∨
      (u.isVerified = true ∧ u.verificationToken = none ∧ u.verificationTokenExpires = none) := by
    intro u hu
    rcases verifyEmail_state db now vtok with h | ⟨t, _, h⟩
    · exact Or.inl (h ▸ hu)
    · rw [h] at hu
      rcases mem_updateFirst hu with h' | ⟨x, _, hx⟩
      · exact Or.inl h'
      · exact Or.inr (by simp [hx, markVerified])
  refine ⟨?_, ?_, hverify⟩
  · intro u hu hv
    rcases registerUser_users_cases db email password username phone tok now
        fbFail mongoFail notify with h | ⟨w, h, hw⟩
    · exact hinv u (h ▸ hu) hv
    · rw [h] at hu
      rcases List.mem_append.mp hu with h' | h'
      · exact hinv u h' hv
      · have : u = w := by simpa using h'
        rw [this] at hv
        exact absurd hv (by simp [hw])
  · intro u hu hv
    rcases hverify u hu with h | h
    · exact hinv u h hv
    · exact ⟨h.2.1, h.2.2⟩

/-- C5: registering an email already present in either backing system
(in the provider, or on a stored account, compared case-insensitively)
never adds a record to the store and always yields the 400
duplicate-account error.  `hcross` is the cross-system invariant that
every stored account has a provider identity (the store is only written
after provider creation succeeds, and the core never deletes provider
identities). -/
theorem c5_duplicate_register_rejected
    (db : DB) (email password : String) (username phone : Option String)
    (tok : String) (now : Nat) (fbFail : Option FirebaseError)
    (mongoFail : Option String) (notify : NotifyOutcome)
    (hEmail : ¬ email = "") (hPassword : ¬ password = "")
    (hcross : ∀ u, u ∈ db.users → db.firebase.contains (lowerEmail u.email) = true)
    (hdup : db.firebase.contains (lowerEmail email) = true ∨
            ∃ u, u ∈ db.users ∧ lowerEmail u.email = lowerEmail email) :
    (registerUser db email password username phone tok now fbFail mongoFail notify).1 =
      .err 400 "A user with that email already exists" ∧
    (registerUser db email password username phone tok now fbFail mongoFail notify).2.users =
      db.users := by
  have hbe : (email == "") = false := beq_eq_false_iff_ne.mpr hEmail
  have hbp : (password == "") = false := beq_eq_false_iff_ne.mpr hPassword
  have hfb : db.firebase.contains (lowerEmail email) = true := by
    rcases hdup with h | ⟨u, hu, he⟩
    · exact h
    · rw [← he]; exact hcross u hu
  cases hpre : db.users.find? (emailMatches email) with
  | some v => constructor <;> simp [registerUser, hbe, hbp, hpre]
  | none =>
      have hfb' : (lowerEmail email) ∈ db.firebase := by simpa using hfb
      constructor <;> simp [registerUser, hbe, hbp, hpre, firebaseCreate, hfb']

/-- C6: `signinCustomer` answers the same generic 401
"Invalid email or password" both when no account exists for the email
and when the provider reports bad credentials for a verified account,
and in the missing-account and unverified branches the answer is
independent of the provider outcome (the lookup and the verification
check precede any provider call). -/
theorem c6_login_generic_auth_error
    (db : DB) (email password : String) (code msg : String)
    (hEmail : ¬ email = "") (hPassword : ¬ password = "")
    (hbad : code = "auth/user-not-found" ∨ code = "auth/wrong-password" ∨
      code = "auth/invalid-credential") :
    (db.users.find? (emailMatches email) = none →
      ∀ o, signinCustomer db email password o = .err 401 "Invalid email or password") ∧
    (∀ u, db.users.find? (emailMatches email) = some u → u.isVerified = true →
      signinCustomer db email password (.failure code msg) =
        .err 401 "Invalid email or password") ∧
    (∀ u, db.users.find? (emailMatches email) = some u → u.isVerified = false →
      ∀ o₁ o₂, signinCustomer db email password o₁ = signinCustomer db email password o₂) := by
  have hbe : (email == "") = false := beq_eq_false_iff_ne.mpr hEmail
  have hbp : (password == "") = false := beq_eq_false_iff_ne.mpr hPassword
  refine ⟨?_, ?_, ?_⟩
  · intro h o
    simp [signinCustomer, hbe, hbp, h]
  · intro u h hv
    rcases hbad with h1 | h1 | h1 <;> simp [signinCustomer, hbe, hbp, h, hv, h1]
  · intro u h hv o₁ o₂
    simp [signinCustomer, hbe, hbp, h, hv]

/-- C7: when the credential provider's create call fails during
registration, the whole state (in particular the record store) is left
untouched: an "auth/email-already-in-use" failure maps to the 400
duplicate-account error and every other failure to the 500 provider
error, in both cases before the record-store create step. -/
theorem c7_provider_failure_aborts_register
    (db : DB) (email password : String) (username phone : Option String)
    (tok : String) (now : Nat) (fbFail : Option FirebaseError)
    (mongoFail : Option String) (notify : NotifyOutcome) (e : FirebaseError)
    (hEmail : ¬ email = "") (hPassword : ¬ password = "")
    (hNoDup : db.users.find? (emailMatches email) = none)
    (hfb : firebaseCreate db.firebase email fbFail = .error e) :
    (registerUser db email password username phone tok now fbFail mongoFail notify).2 = db ∧
    (registerUser db email password username phone tok now fbFail mongoFail notify).1 =
      (if e.code == "auth/email-already-in-use" then
        RegisterResponse.err 400 "A user with that email already exists"
      else RegisterResponse.err 500 ("Error creating Firebase user: " ++ e.message)) := by
  have hbe : (email == "") = false := beq_eq_false_iff_ne.mpr hEmail
  have hbp : (password == "") = false := beq_eq_false_iff_ne.mpr hPassword
  by_cases hc : (e.code == "auth/email-already-in-use") = true <;>
    constructor <;> simp [registerUser, hbe, hbp, hNoDup, hfb, hc]

/-- C8: the notifier outcome never changes the result of
`registerUser` (it is logged and swallowed), and a registration whose
provider and store steps succeeded returns the success-pending
acknowledgment under every notifier outcome. -/
theorem c8_notifier_failure_absorbed
    (db : DB) (email password : String) (username phone : Option String)
    (tok : String) (now : Nat) (n₁ n₂ : NotifyOutcome)
    (hEmail : ¬ email = "") (hPassword : ¬ password = "")
    (hNoDup : db.users.find? (emailMatches email) = none)
    (hFb : db.firebase.contains (lowerEmail email) = false) :
    (∀ fbF mongoF, registerUser db email password username phone tok now fbF mongoF n₁ =
      registerUser db email password username phone tok now fbF mongoF n₂) ∧
    (registerUser db email password username phone tok now none none n₁).1 =
      .ok "User registered successfully. Please check your email to verify your account." := by
  have hbe : (email == "") = false := beq_eq_false_iff_ne.mpr hEmail
  have hbp : (password == "") = false := beq_eq_false_iff_ne.mpr hPassword
  have hFb' : ¬ (lowerEmail email) ∈ db.firebase := by simpa using hFb
  refine ⟨fun fbF mongoF => rfl, ?_⟩
  simp [registerUser, hbe, hbp, hNoDup, firebaseCreate, hFb']

/-- C9 counterexample: an unexpected provider failure during
registration is surfaced with the provider's own message text embedded
verbatim in the caller-visible error, so the surfaced error is not
opaque as claimed. -/
theorem c9_counterexample_provider_message_leaked :
    (registerUser { firebase := [], users := [] } "a@x.com" "secret1" none none "tok123" 0
        (some { code := "auth/internal-error", message := "secret-internal-detail" }) none
        NotifyOutcome.ok).1 =
      .err 500 ("Error creating Firebase user: " ++ "secret-internal-detail") := by
  rfl

/-- C9 amended: unexpected failures of the credential provider or the
record store during register or login surface as 500 errors whose
message embeds the failing external system's message text after a fixed
prefix ("Error creating Firebase user: ", "Error creating user: ",
"Authentication failed: "), rather than as opaque errors. -/
theorem c9_amended_errors_embed_external_message :
    (∀ (db : DB) (email password : String) (username phone : Option String)
       (tok : String) (now : Nat) (notify : NotifyOutcome)
       (fbF : Option FirebaseError) (e : FirebaseError) (mongoF : Option String),
       ¬ email = "" → ¬ password = "" →
       db.users.find? (emailMatches email) = none →
       firebaseCreate db.firebase email fbF = .error e →
       ¬ e.code = "auth/email-already-in-use" →
       (registerUser db email password username phone tok now fbF mongoF notify).1 =
         .err 500 ("Error creating Firebase user: " ++ e.message)) ∧
    (∀ (db : DB) (email password : String) (username phone : Option String)
       (tok : String) (now : Nat) (notify : NotifyOutcome) (msg : String),
       ¬ email = "" → ¬ password = "" →
       db.users.find? (emailMatches email) = none →
       db.firebase.contains (lowerEmail email) = false →
       (registerUser db email password username phone tok now none (some msg) notify).1 =
         .err 500 ("Error creating user: " ++ msg)) ∧
    (∀ (db : DB) (email password : String) (u : UserRecord) (code msg : String),
       ¬ email = "" → ¬ password = "" →
       db.users.find? (emailMatches email) = some u → u.isVerified = true →
       ¬ code = "auth/user-not-found" → ¬ code = "auth/wrong-password" →
       ¬ code = "auth/invalid-credential" →
       signinCustomer db email password (.failure code msg) =
         .err 500 ("Authentication failed: " ++ msg)) := by
  refine ⟨?_, ?_, ?_⟩
  · intro db email password username phone tok now notify fbF e mongoF
      hEmail hPassword hNoDup hfb hcode
    have hbe : (email == "") = false := beq_eq_false_iff_ne.mpr hEmail
    have hbp : (password == "") = false := beq_eq_false_iff_ne.mpr hPassword
    have hc : (e.code == "auth/email-already-in-use") = false := beq_eq_false_iff_ne.mpr hcode
    simp [registerUser, hbe, hbp, hNoDup, hfb, hc]
  · intro db email password username phone tok now notify msg hEmail hPassword hNoDup hFb
    have hbe : (email == "") = false := beq_eq_false_iff_ne.mpr hEmail
    have hbp : (password == "") = false := beq_eq_false_iff_ne.mpr hPassword
    have hFb' : ¬ (lowerEmail email) ∈ db.firebase := by simpa using hFb
    simp [registerUser, hbe, hbp, hNoDup, firebaseCreate, hFb']
  · intro db email password u code msg hEmail hPassword hu hv h1 h2 h3
    have hbe : (email == "") = false := beq_eq_false_iff_ne.mpr hEmail
    have hbp : (password == "") = false := beq_eq_false_iff_ne.mpr hPassword
    have hc1 : (code == "auth/user-not-found") = false := beq_eq_false_iff_ne.mpr h1
    have hc2 : (code == "auth/wrong-password") = false := beq_eq_false_iff_ne.mpr h2
    have hc3 : (code == "auth/invalid-credential") = false := beq_eq_false_iff_ne.mpr h3
    simp [signinCustomer, hbe, hbp, hu, hv, hc1, hc2, hc3]

/-- C10: whenever `verifyEmail` does not answer the success page
(missing token, no matching account, or expired token), the state is
returned unchanged: the only write in the verification path happens
after a successful token match. -/
theorem c10_verify_error_leaves_state_unchanged
    (db : DB) (now : Nat) (vtok : Option String)
    (h : ¬ (verifyEmail db now vtok).1 = .successPage) :
    (verifyEmail db now vtok).2 = db := by
  cases vtok with
  | none => rfl
  | some t =>
      by_cases hbt : (t == "") = true
      · simp [verifyEmail, hbt]
      · have h2 : (t == "") = false := by simpa using hbt
        cases hf : db.users.find? (tokenMatches t now) with
        | none => simp [verifyEmail, h2, hf]
        | some u => exact absurd (by simp [verifyEmail, h2, hf]) h

/-! ### Witnesses: each theorem above applied at a concrete input -/

theorem c1_register_then_login_unverified_witness :
    (¬ "a@x.com" = "") ∧ (¬ "secret1" = "") ∧
    (DB.mk [] []).users.find? (emailMatches "a@x.com") = none ∧
    (DB.mk [] []).firebase.contains (lowerEmail "a@x.com") = false ∧
    ((registerUser (DB.mk [] []) "a@x.com" "secret1" none none "t0" 0 none none
        NotifyOutcome.ok).1 =
      .ok "User registered successfully. Please check your email to verify your account." ∧
    (∃ u, (registerUser (DB.mk [] []) "a@x.com" "secret1" none none "t0" 0 none none
          NotifyOutcome.ok).2.users.find? (emailMatches "a@x.com") = some u ∧
        u.isVerified = false) ∧
    signinCustomer (registerUser (DB.mk [] []) "a@x.com" "secret1" none none "t0" 0 none none
        NotifyOutcome.ok).2 "a@x.com" "secret1" (FirebaseSignIn.success "id") =
      .err 403 "Please verify your email address before logging in. Check your inbox for the verification email.") :=
  ⟨by decide, by decide, rfl, rfl,
    c1_register_then_login_unverified (DB.mk [] []) "a@x.com" "secret1" none none "t0" 0
      NotifyOutcome.ok (FirebaseSignIn.success "id") (by decide) (by decide) rfl rfl⟩

theorem c2_verify_success_iff_match_witness :
    (¬ "t1" = "") ∧
    (((verifyEmail (DB.mk []
        [⟨"a@x.com", "h", none, none, "", 0, 0, "", "", [], [], false, some "t1", some 100⟩])
        0 (some "t1")).1 = .successPage ↔
      ∃ u, u ∈ (DB.mk []
          [⟨"a@x.com", "h", none, none, "", 0, 0, "", "", [], [], false, some "t1", some 100⟩]).users ∧
        u.verificationToken = some "t1" ∧
        ∃ e, u.verificationTokenExpires = some e ∧ 0 < e) ∧
    ∀ r, (verifyEmail (DB.mk []
        [⟨"a@x.com", "h", none, none, "", 0, 0, "", "", [], [], false, some "t1", some 100⟩])
        0 (some "t1")).1 = .errorPage r →
      r = "Invalid or expired verification token. Please request a new verification email.") :=
  ⟨by decide,
    c2_verify_success_iff_match (DB.mk []
      [⟨"a@x.com", "h", none, none, "", 0, 0, "", "", [], [], false, some "t1", some 100⟩])
      0 "t1" (by decide)⟩

theorem c3_verify_then_replay_rejected_witness :
    (¬ "t1" = "") ∧
    ((verifyEmail (DB.mk []
        [⟨"a@x.com", "h", none, none, "", 0, 0, "", "", [], [], false, some "t1", some 100⟩])
        0 (some "t1")).1 = .successPage ∧
    (verifyEmail (verifyEmail (DB.mk []
        [⟨"a@x.com", "h", none, none, "", 0, 0, "", "", [], [], false, some "t1", some 100⟩])
        0 (some "t1")).2 0 (some "t1")).1 =
      .errorPage "Invalid or expired verification token. Please request a new verification email.") :=
  ⟨by decide,
    c3_verify_then_replay_rejected (DB.mk []
      [⟨"a@x.com", "h", none, none, "", 0, 0, "", "", [], [], false, some "t1", some 100⟩])
      0 "t1" ⟨"a@x.com", "h", none, none, "", 0, 0, "", "", [], [], false, some "t1", some 100⟩
      100 (by decide) (List.mem_singleton.mpr rfl) rfl rfl (by decide) rfl (by decide)⟩

theorem c4_invariant_preserved_witness :
    ((∀ u, u ∈ (registerUser (DB.mk [] []) "a@x.com" "secret1" none none "t0" 0 none none
        NotifyOutcome.ok).2.users →
      u.isVerified = true → u.verificationToken = none ∧ u.verificationTokenExpires = none) ∧
    (∀ u, u ∈ (verifyEmail (DB.mk [] []) 0 (some "t0")).2.users →
      u.isVerified = true → u.verificationToken = none ∧ u.verificationTokenExpires = none) ∧
    (∀ u, u ∈ (verifyEmail (DB.mk [] []) 0 (some "t0")).2.users → u ∈ (DB.mk [] []).users ∨
      (u.isVerified = true ∧ u.verificationToken = none ∧ u.verificationTokenExpires = none))) :=
  c4_invariant_preserved (DB.mk [] []) (by simp) "a@x.com" "secret1" none none "t0" 0
    none none NotifyOutcome.ok (some "t0")

theorem c5_duplicate_register_rejected_witness :
    (¬ "A@X.com" = "") ∧ (¬ "pw" = "") ∧
    ((registerUser (DB.mk ["a@x.com"]
        [⟨"a@x.com", "h", none, none, "", 0, 0, "", "", [], [], false, none, none⟩])
        "A@X.com" "pw" none none "t0" 0 none none NotifyOutcome.ok).1 =
      .err 400 "A user with that email already exists" ∧
    (registerUser (DB.mk ["a@x.com"]
        [⟨"a@x.com", "h", none, none, "", 0, 0, "", "", [], [], false, none, none⟩])
        "A@X.com" "pw" none none "t0" 0 none none NotifyOutcome.ok).2.users =
      (DB.mk ["a@x.com"]
        [⟨"a@x.com", "h", none, none, "", 0, 0, "", "", [], [], false, none, none⟩]).users) :=
  ⟨by decide, by decide,
    c5_duplicate_register_rejected (DB.mk ["a@x.com"]
      [⟨"a@x.com", "h", none, none, "", 0, 0, "", "", [], [], false, none, none⟩])
      "A@X.com" "pw" none none "t0" 0 none none NotifyOutcome.ok
      (by decide) (by decide) (by decide) (Or.inl (by decide))⟩

theorem c6_login_generic_auth_error_witness :
    (¬ "a@x.com" = "") ∧ (¬ "pw" = "") ∧
    (("auth/wrong-password" : String) = "auth/user-not-found" ∨
      ("auth/wrong-password" : String) = "auth/wrong-password" ∨
      ("auth/wrong-password" : String) = "auth/invalid-credential") ∧
    (((DB.mk [] [⟨"a@x.com", "h", none, none, "", 0, 0, "", "", [], [], true, none, none⟩]).users.find?
        (emailMatches "a@x.com") = none →
      ∀ o, signinCustomer (DB.mk []
          [⟨"a@x.com", "h", none, none, "", 0, 0, "", "", [], [], true, none, none⟩])
          "a@x.com" "pw" o = .err 401 "Invalid email or password") ∧
    (∀ u, (DB.mk [] [⟨"a@x.com", "h", none, none, "", 0, 0, "", "", [], [], true, none, none⟩]).users.find?
        (emailMatches "a@x.com") = some u → u.isVerified = true →
      signinCustomer (DB.mk []
          [⟨"a@x.com", "h", none, none, "", 0, 0, "", "", [], [], true, none, none⟩])
          "a@x.com" "pw" (.failure "auth/wrong-password" "nope") =
        .err 401 "Invalid email or password") ∧
    (∀ u, (DB.mk [] [⟨"a@x.com", "h", none, none, "", 0, 0, "", "", [], [], true, none, none⟩]).users.find?
        (emailMatches "a@x.com") = some u → u.isVerified = false →
      ∀ o₁ o₂, signinCustomer (DB.mk []
          [⟨"a@x.com", "h", none, none, "", 0, 0, "", "", [], [], true, none, none⟩])
          "a@x.com" "pw" o₁ =
        signinCustomer (DB.mk []
          [⟨"a@x.com", "h", none, none, "", 0, 0, "", "", [], [], true, none, none⟩])
          "a@x.com" "pw" o₂)) :=
  ⟨by decide, by decide, Or.inr (Or.inl rfl),
    c6_login_generic_auth_error (DB.mk []
      [⟨"a@x.com", "h", none, none, "", 0, 0, "", "", [], [], true, none, none⟩])
      "a@x.com" "pw" "auth/wrong-password" "nope" (by decide) (by decide)
      (Or.inr (Or.inl rfl))⟩

theorem c7_provider_failure_aborts_register_witness :
    (¬ "a@x.com" = "") ∧ (¬ "pw" = "") ∧
    (DB.mk [] []).users.find? (emailMatches "a@x.com") = none ∧
    firebaseCreate (DB.mk [] []).firebase "a@x.com"
      (some ⟨"auth/network-request-failed", "network down"⟩) =
      .error ⟨"auth/network-request-failed", "network down"⟩ ∧
    ((registerUser (DB.mk [] []) "a@x.com" "pw" none none "t0" 0
        (some ⟨"auth/network-request-failed", "network down"⟩) none NotifyOutcome.ok).2 =
      DB.mk [] [] ∧
    (registerUser (DB.mk [] []) "a@x.com" "pw" none none "t0" 0
        (some ⟨"auth/network-request-failed", "network down"⟩) none NotifyOutcome.ok).1 =
      (if ("auth/network-request-failed" : String) == "auth/email-already-in-use" then
        RegisterResponse.err 400 "A user with that email already exists"
      else RegisterResponse.err 500 ("Error creating Firebase user: " ++ "network down"))) :=
  ⟨by decide, by decide, rfl, rfl,
    c7_provider_failure_aborts_register (DB.mk [] []) "a@x.com" "pw" none none "t0" 0
      (some ⟨"auth/network-request-failed", "network down"⟩) none NotifyOutcome.ok
      ⟨"auth/network-request-failed", "network down"⟩ (by decide) (by decide) rfl rfl⟩

theorem c8_notifier_failure_absorbed_witness :
    (¬ "a@x.com" = "") ∧ (¬ "pw" = "") ∧
    (DB.mk [] []).users.find? (emailMatches "a@x.com") = none ∧
    (DB.mk [] []).firebase.contains (lowerEmail "a@x.com") = false ∧
    ((∀ fbF mongoF, registerUser (DB.mk [] []) "a@x.com" "pw" none none "t0" 0 fbF mongoF
        NotifyOutcome.ok =
      registerUser (DB.mk [] []) "a@x.com" "pw" none none "t0" 0 fbF mongoF
        (NotifyOutcome.failed "smtp down")) ∧
    (registerUser (DB.mk [] []) "a@x.com" "pw" none none "t0" 0 none none
        NotifyOutcome.ok).1 =
      .ok "User registered successfully. Please check your email to verify your account.") :=
  ⟨by decide, by decide, rfl, rfl,
    c8_notifier_failure_absorbed (DB.mk [] []) "a@x.com" "pw" none none "t0" 0
      NotifyOutcome.ok (NotifyOutcome.failed "smtp down") (by decide) (by decide) rfl rfl⟩

theorem c9_amended_errors_embed_external_message_witness :
    (registerUser (DB.mk [] []) "a@x.com" "pw" none none "t0" 0
        (some ⟨"auth/internal-error", "provider detail"⟩) none NotifyOutcome.ok).1 =
      .err 500 ("Error creating Firebase user: " ++ "provider detail") ∧
    (registerUser (DB.mk [] []) "a@x.com" "pw" none none "t0" 0
        none (some "store detail") NotifyOutcome.ok).1 =
      .err 500 ("Error creating user: " ++ "store detail") ∧
    signinCustomer (DB.mk []
        [⟨"a@x.com", "h", none, none, "", 0, 0, "", "", [], [], true, none, none⟩])
        "a@x.com" "pw" (.failure "auth/too-many-requests" "auth detail") =
      .err 500 ("Authentication failed: " ++ "auth detail") :=
  ⟨c9_amended_errors_embed_external_message.1 (DB.mk [] []) "a@x.com" "pw" none none "t0" 0
      NotifyOutcome.ok (some ⟨"auth/internal-error", "provider detail"⟩)
      ⟨"auth/internal-error", "provider detail"⟩ none
      (by decide) (by decide) rfl rfl (by decide),
    c9_amended_errors_embed_external_message.2.1 (DB.mk [] []) "a@x.com" "pw" none none "t0" 0
      NotifyOutcome.ok "store detail" (by decide) (by decide) rfl rfl,
    c9_amended_errors_embed_external_message.2.2 (DB.mk []
        [⟨"a@x.com", "h", none, none, "", 0, 0, "", "", [], [], true, none, none⟩])
      "a@x.com" "pw" ⟨"a@x.com", "h", none, none, "", 0, 0, "", "", [], [], true, none, none⟩
      "auth/too-many-requests" "auth detail"
      (by decide) (by decide) rfl rfl (by decide) (by decide) (by decide)⟩

theorem c10_verify_error_leaves_state_unchanged_witness :
    (¬ (verifyEmail (DB.mk [] []) 0 (some "zzz")).1 = .successPage) ∧
    (verifyEmail (DB.mk [] []) 0 (some "zzz")).2 = DB.mk [] [] :=
  ⟨by decide,
    c10_verify_error_leaves_state_unchanged (DB.mk [] []) 0 (some "zzz") (by decide)⟩

end Booty
